import Mathlib

/-!
Verification development for the Library-of-Babel ingestion pipeline.

Shallow embedding of the producer/consumer import pipeline
(`channel_import_pipeline.py`), the parallel importer
(`channel_import_parallel.py`), the failure journal (`batch_import.py`)
and the analysis helper (`youtube_transcript_to_md.py`).

Modelling conventions:
- Python strings are Lean `String` (ids, error messages); text that must be
  scanned character-by-character is `List Char`.
- External effects (network fetch, LLM call, file I/O, VPN switch) are
  modelled by outcome oracles attached to each work item: the code's control
  flow is translated faithfully, the environment's answers are parameters.
- `pending.json` on disk is `Option Pending`: `none` models a missing file
  or one whose parse raises (both make `load_pending` fall back to the
  empty structure).
- Thread interleavings of the pipeline are a small-step transition system
  (`Step`/`Reachable`) at the granularity of the code's lock-protected
  regions; a successful fetch's channel `put` and its `fetched` increment
  are merged into one step (the producer performs them back to back before
  its next loop iteration, so completed-run counts are unaffected).
-/

/-! ## Failure journal (`batch_import.py`) -/

/-- One record of `pending.json`'s `failed` list. -/
structure FailureRecord where
  url : String
  video_id : String
  error : String
  attempted_at : String
  source : String
deriving DecidableEq, Repr

/-- The whole `pending.json` document: `{"failed": [...]}`. -/
structure Pending where
  failed : List FailureRecord
deriving DecidableEq, Repr

/-- `load_pending`: returns the parsed file, or `{"failed": []}` when the
file is missing or any exception occurs while reading/parsing it
(`batch_import.py` lines 53-61). The store argument is `none` exactly in
those failure cases. -/
def load_pending (store : Option Pending) : Pending :=
  match store with
  | some p => p
  | none => { failed := [] }

/-- `save_pending`: writes the document back; the store afterwards holds it
(`batch_import.py` lines 64-67). -/
def save_pending (p : Pending) : Option Pending :=
  some p

/-- The `video_id`s currently recorded in the durable store. -/
def storeIds (store : Option Pending) : List String :=
  (load_pending store).failed.map (fun r => r.video_id)

/-- `add_to_pending` (`batch_import.py` lines 70-86): load, skip if the id is
already present, otherwise append the record and persist the full set.
Returns the store after the call. -/
def add_to_pending (url video_id error attempted_at source : String)
    (store : Option Pending) : Option Pending :=
  let pending := load_pending store
  if video_id ∈ pending.failed.map (fun r => r.video_id) then store
  else save_pending { failed := pending.failed ++
    [{ url := url, video_id := video_id, error := error,
       attempted_at := attempted_at, source := source }] }

/-- The journal append performed by the pipeline producer and the parallel
importer under `pending_lock` (`channel_import_pipeline.py` lines 161-174,
`channel_import_parallel.py` lines 174-188): the whole read-modify-write is
wrapped in `try/except: pass`, so when any I/O exception occurs (`ioOk =
false`) the store is left as it was and control continues. -/
def journalAppend (ioOk : Bool) (url video_id error attempted_at source : String)
    (store : Option Pending) : Option Pending :=
  if ioOk then add_to_pending url video_id error attempted_at source store
  else store

/-! ## Shared pipeline stats (`channel_import_pipeline.py` line 64) -/

/-- The shared `stats` dict `{"success", "failed", "fetched", "processed"}`,
every mutation under `stats_lock`. -/
structure Stats where
  success : Nat
  failed : Nat
  fetched : Nat
  processed : Nat
deriving DecidableEq, Repr

/-- Consumer-side stats update (`channel_import_pipeline.py` lines 226-235):
on analysis success bump `success` and `processed`; on any exception in the
processing block bump `failed` and `processed`. Either way the item counts
as processed. -/
def consumerProcess (analyzeOk : Bool) (st : Stats) : Stats :=
  if analyzeOk then
    { st with success := st.success + 1, processed := st.processed + 1 }
  else
    { st with failed := st.failed + 1, processed := st.processed + 1 }

/-- Folding a completed consumer pool over the analysis outcomes of the
payloads that were placed on the channel. -/
def consumersRun (outcomes : List Bool) (st : Stats) : Stats :=
  outcomes.foldl (fun s b => consumerProcess b s) st

/-! ## Producer model (`channel_import_pipeline.py` lines 102-179) -/

/-- Outcome oracle for one `fetch_transcript` call: the transcript on
success, the exception's string on failure. -/
inductive FetchRes where
  | ok (transcript : String)
  | err (msg : String)
deriving DecidableEq, Repr

/-- Whether the fetch raised. -/
def FetchRes.isOk : FetchRes → Bool
  | .ok _ => true
  | .err _ => false

/-- The error message carried by a failed fetch (empty for a success). -/
def FetchRes.msg : FetchRes → String
  | .ok _ => ""
  | .err m => m

/-- Outcome oracle for one `switch_vpn()` call (`channel_import_pipeline.py`
lines 77-99): the expresso binary may be absent (early `return False`), the
connect command may fail, or it succeeds (followed by `time.sleep(3)`). -/
inductive VpnRes where
  | noBinary
  | connectFail
  | connected
deriving DecidableEq, Repr

/-- Observable producer events, in program order. `rotateCall` marks the
invocation of `switch_vpn()`, `settle` its post-success `time.sleep(3)`,
`fetchTry` the `fetch_transcript` attempt, `pushed` the `video_queue.put`. -/
inductive Ev where
  | rotateCall
  | settle
  | fetchTry (vid : String)
  | pushed (vid : String)
deriving DecidableEq, Repr

/-- `switch_vpn()`: returns whether the switch succeeded together with its
observable events. With no binary it returns `False` before doing anything;
after a successful connect it sleeps 3 seconds to settle. -/
def switch_vpn : VpnRes → Bool × List Ev
  | .noBinary => (false, [.rotateCall])
  | .connectFail => (false, [.rotateCall])
  | .connected => (true, [.rotateCall, .settle])

/-- One work item of the pipeline run, with the oracles for every external
interaction it may trigger: the fetch outcome, the analysis outcome (used by
whichever consumer dequeues it), whether the journal I/O raises, and the VPN
switch outcome (used if a rotation fires at this item). -/
structure PVideo where
  videoId : String
  fetch : FetchRes
  analyzeOk : Bool
  journalIOOk : Bool
  vpn : VpnRes
deriving DecidableEq, Repr

/-- Producer configuration: the `--vpn-rotate` interval (0 disables
rotation, default 15) and the channel name recorded in failure records. -/
structure ProducerCfg where
  vpnRotate : Nat
  channelName : String
deriving DecidableEq, Repr

/-- Producer-local state plus the shared state it touches: `attempts`,
`consecutive_failures`, `last_vpn_switch` are the locals of `producer`;
`queue` records the payloads put on the channel in order; `store` is
`pending.json`; `stats` the shared dict; `events` the observable trace. -/
structure ProducerState where
  attempts : Nat
  consecutiveFailures : Nat
  lastVpnSwitch : Nat
  queue : List PVideo
  store : Option Pending
  stats : Stats
  events : List Ev
deriving DecidableEq, Repr

/-- The watch URL built by the producer for a video id. -/
def watchUrl (vid : String) : String :=
  "https://www.youtube.com/watch?v=" ++ vid

/-- The rotation trigger (`channel_import_pipeline.py` lines 127-129),
evaluated with `attempts` already incremented for this item: rotation is
considered only when `vpn_rotate > 0`, and fires when the attempt counter is
a fresh multiple of the interval or after 3 consecutive failures. -/
def rotationTriggered (cfg : ProducerCfg) (attempts lastVpnSwitch consecutiveFailures : Nat) : Bool :=
  decide (0 < cfg.vpnRotate) &&
    ((decide (0 < attempts) && decide (lastVpnSwitch < attempts) &&
      decide (attempts % cfg.vpnRotate = 0)) ||
     decide (3 ≤ consecutiveFailures))

/-- One iteration of the producer's `for` loop body
(`channel_import_pipeline.py` lines 114-177) for item `v`. The
`time.sleep(delay + jitter)` has no state effect and is not modelled; the
timestamp written into failure records is left empty (wall-clock is
external). -/
def producerStep (cfg : ProducerCfg) (v : PVideo) (s : ProducerState) : ProducerState :=
  let attempts := s.attempts + 1
  let rot := rotationTriggered cfg attempts s.lastVpnSwitch s.consecutiveFailures
  let rotEvents := if rot then (switch_vpn v.vpn).2 else []
  let lastVpnSwitch := if rot then attempts else s.lastVpnSwitch
  let consecutiveFailures := if rot then 0 else s.consecutiveFailures
  match v.fetch with
  | .ok _ =>
      { attempts := attempts
        consecutiveFailures := 0
        lastVpnSwitch := lastVpnSwitch
        queue := s.queue ++ [v]
        store := s.store
        stats := { s.stats with fetched := s.stats.fetched + 1 }
        events := s.events ++ rotEvents ++ [.fetchTry v.videoId, .pushed v.videoId] }
  | .err m =>
      { attempts := attempts
        consecutiveFailures := consecutiveFailures + 1
        lastVpnSwitch := lastVpnSwitch
        queue := s.queue
        store := journalAppend v.journalIOOk (watchUrl v.videoId) v.videoId m ""
          cfg.channelName s.store
        stats := { s.stats with failed := s.stats.failed + 1 }
        events := s.events ++ rotEvents ++ [.fetchTry v.videoId] }

/-- The producer's full loop over its item list (the coordinator never sets
`done_event` before joining the producer, so the early-break guard is
inactive in a coordinator-driven run). -/
def producerRun (cfg : ProducerCfg) (videos : List PVideo) (s : ProducerState) : ProducerState :=
  videos.foldl (fun st v => producerStep cfg v st) s

/-- Producer state at thread start: all local counters zero, nothing queued,
the journal store as found on disk. -/
def initProducerState (store0 : Option Pending) : ProducerState :=
  { attempts := 0, consecutiveFailures := 0, lastVpnSwitch := 0,
    queue := [], store := store0,
    stats := { success := 0, failed := 0, fetched := 0, processed := 0 },
    events := [] }

/-- `main`'s filter (`channel_import_pipeline.py` line 299): keep videos with
a truthy `videoId` that is not in the existing-ID set. A missing/`None` id is
modelled as the empty string (both are falsy in Python). -/
def to_process (videos : List PVideo) (existingIds : List String) : List PVideo :=
  videos.filter (fun v => !(v.videoId == "") && !(existingIds.contains v.videoId))

/-- The producer run exactly as `main` launches it: filter against the
existing-ID set, then run the producer from a fresh state over the filtered
list. -/
def channelPipelineRun (cfg : ProducerCfg) (videos : List PVideo)
    (existingIds : List String) (store0 : Option Pending) : ProducerState :=
  producerRun cfg (to_process videos existingIds) (initProducerState store0)

/-- Final shared stats of a completed run: the producer's contribution plus
one consumer completion per payload placed on the channel (the transition
system below proves each payload is processed exactly once before the
drain-and-join returns). -/
def completedRunStats (cfg : ProducerCfg) (videos : List PVideo)
    (existingIds : List String) (store0 : Option Pending) : Stats :=
  let p := channelPipelineRun cfg videos existingIds store0
  consumersRun (p.queue.map (fun v => v.analyzeOk)) p.stats

/-! ## Parallel importer (`channel_import_parallel.py` lines 115-193) -/

/-- Whether `needle` occurs as a contiguous sublist of the second list
(Python's `needle in haystack` on strings). -/
def containsSub (needle : List Char) : List Char → Bool
  | [] => needle.isPrefixOf []
  | c :: rest => needle.isPrefixOf (c :: rest) || containsSub needle rest

/-- The substring `process_video_parallel` looks for to classify an error as
a YouTube rate limit (`channel_import_parallel.py` line 160). -/
def rateLimitMarker : String := "blocking requests from your IP"

/-- `"blocking requests from your IP" in error_str`. -/
def isRateLimited (errorStr : String) : Bool :=
  containsSub rateLimitMarker.toList errorStr.toList

/-- `max_retries = 3` (`channel_import_parallel.py` line 122). -/
def max_retries : Nat := 3

/-- `base_backoff = 5` seconds (`channel_import_parallel.py` line 123). -/
def base_backoff : Nat := 5

/-- Outcome oracle for one iteration of `process_video_parallel`'s try block
(fetch, metadata generation, file writes): the title on success, the
exception's string otherwise. -/
inductive AttemptRes where
  | ok (title : String)
  | err (msg : String)
deriving DecidableEq, Repr

/-- Result of `process_video_parallel`: the returned
`(video_id, success, message)` tuple, the shared stats and journal store
after the call, and the `wait_time` of each backoff sleep taken (in seconds;
the real jitter is a uniform sample in `[0, 3]`, modelled by the oracle
`j`). -/
structure ParallelOut where
  result : String × Bool × String
  stats : Stats
  store : Option Pending
  backoffs : List Nat
deriving DecidableEq, Repr

/-- The retry loop of `process_video_parallel` (`channel_import_parallel.py`
lines 125-193). `attempt` is the loop variable; `fuel` is the number of loop
iterations left (`max_retries - attempt` at every call), so the fuel-zero
case is the fall-through `return (video_id, False, "Max retries exceeded")`
after the `for` ends. Retries happen only when the error message carries the
rate-limit marker and attempts remain; any other failure is terminal: bump
`failed` and `processed`, append to the journal (dedup, exceptions
swallowed), and return. -/
def processVideoParallelGo (vid chan : String) (o : Nat → AttemptRes) (j : Nat → Nat)
    (jOk : Bool) (st : Stats) (store : Option Pending) : Nat → Nat → ParallelOut
  | _, 0 => ⟨(vid, false, "Max retries exceeded"), st, store, []⟩
  | attempt, fuel + 1 =>
    match o attempt with
    | .ok title =>
        ⟨(vid, true, title),
         { st with success := st.success + 1, processed := st.processed + 1 },
         store, []⟩
    | .err m =>
        if isRateLimited m && decide (attempt < max_retries - 1) then
          let rest := processVideoParallelGo vid chan o j jOk st store (attempt + 1) fuel
          { rest with backoffs := (base_backoff * 2 ^ attempt + j attempt) :: rest.backoffs }
        else
          ⟨(vid, false, m),
           { st with failed := st.failed + 1, processed := st.processed + 1 },
           journalAppend jOk (watchUrl vid) vid m "" chan store, []⟩

/-- `process_video_parallel(video_id, channel_info, ...)` with its external
interactions resolved by the oracles `o` (per-attempt outcome), `j`
(per-attempt backoff jitter) and `jOk` (journal I/O health). -/
def process_video_parallel (vid chan : String) (o : Nat → AttemptRes) (j : Nat → Nat)
    (jOk : Bool) (st : Stats) (store : Option Pending) : ParallelOut :=
  processVideoParallelGo vid chan o j jOk st store 0 max_retries

/-! ## Analysis capability (`youtube_transcript_to_md.py` lines 123-199) -/

/-- Python `str.strip()` on the character list. -/
def trimChars (s : List Char) : List Char :=
  ((s.dropWhile Char.isWhitespace).reverse.dropWhile Char.isWhitespace).reverse

/-- `ollama_generate` (`youtube_transcript_to_md.py` lines 123-134): on a
successful HTTP round-trip it returns the stripped `response` field; on any
exception (connection error, timeout, bad status, parse failure) it prints a
warning and returns the empty string — it never raises. The argument is the
outcome of the HTTP call, text as a character list. -/
def ollama_generate (resp : Except String (List Char)) : List Char :=
  match resp with
  | .ok body => trimChars body
  | .error _ => []

/-- Python `str.split('\n')`. -/
def splitLines : List Char → List (List Char)
  | [] => [[]]
  | c :: rest =>
    match splitLines rest with
    | [] => [[]]
    | l :: ls => if c = '\n' then [] :: l :: ls else (c :: l) :: ls

/-- The response parsing of `analyze_section` (`youtube_transcript_to_md.py`
lines 185-192): scan the lines of the LLM output for `TITLE:` and
`DESCRIPTION:` prefixes, defaulting to `("Untitled Section", "")`. -/
def parse_section_response (result : List Char) : List Char × List Char :=
  (splitLines result).foldl
    (fun td line =>
      if "TITLE:".toList.isPrefixOf line then (trimChars (line.drop 6), td.2)
      else if "DESCRIPTION:".toList.isPrefixOf line then (td.1, trimChars (line.drop 12))
      else td)
    ("Untitled Section".toList, [])

/-! ## Pipeline transition system (`channel_import_pipeline.py`)

Interleaved execution of the producer thread, the consumer threads and the
coordinator (`main`, lines 326-365), at the granularity of the code's
lock-protected regions. `buffer` is the real payloads inside the
`Queue(maxsize=20)`; `pills` the `None` sentinels inside it; `unfinished`
the queue's `unfinished_tasks` counter (incremented by every `put`,
decremented only by `task_done`; consumers `break` on a pill without calling
`task_done`); `inFlight` payloads dequeued but not yet acknowledged;
`prodFail` is a history variable counting the producer's `failed`
increments (the code adds them to the same shared `failed` counter).
Rotation counters do not affect the queue, the stats or the journal and are
modelled in `producerStep`. -/

/-- Run configuration of `main`: channel capacity (hard-coded
`Queue(maxsize=20)` at line 316), `--consumers` count, and the channel name
used in failure records. -/
structure PipeCfg where
  capacity : Nat
  consumers : Nat
  channelName : String
deriving DecidableEq, Repr

/-- The configuration `main` actually builds: capacity 20. -/
def mainPipeCfg (consumers : Nat) (channelName : String) : PipeCfg :=
  { capacity := 20, consumers := consumers, channelName := channelName }

/-- Interleaved-execution state of one pipeline run. -/
structure PipeState where
  todo : List PVideo
  producerDone : Bool
  buffer : List PVideo
  pills : Nat
  pillsIssued : Nat
  inFlight : List PVideo
  unfinished : Nat
  stats : Stats
  store : Option Pending
  prodFail : Nat
  doneEvent : Bool
deriving DecidableEq, Repr

/-- Start of a run: producer holds the filtered video list, queue empty,
stats zero, journal as found on disk, `done_event` clear. -/
def initPipeState (videos : List PVideo) (store0 : Option Pending) : PipeState :=
  { todo := videos, producerDone := false, buffer := [], pills := 0,
    pillsIssued := 0, inFlight := [], unfinished := 0,
    stats := { success := 0, failed := 0, fetched := 0, processed := 0 },
    store := store0, prodFail := 0, doneEvent := false }

/-- One scheduler step of the running pipeline. `fetchOk` is the producer's
success path (a `put` — which blocks unless the queue is below capacity —
followed by the `fetched` increment); `fetchFail` its failure path (journal
append under `pending_lock`, `failed` increment); `producerFinish` the
producer thread returning; `consumerGet`/`consumerFinish` a consumer
dequeuing and completing one payload (stats update then `task_done`);
`setDone` the coordinator setting `done_event` — it can only happen after
the producer joined and `video_queue.join()` returned, i.e. `unfinished =
0`; `putPill`/`getPill` the poison pills pushed afterwards and consumed by
exiting consumers. -/
inductive Step (cfg : PipeCfg) : PipeState → PipeState → Prop where
  | fetchOk (s : PipeState) (v : PVideo) (rest : List PVideo)
      (htodo : s.todo = v :: rest) (hok : v.fetch.isOk = true)
      (hcap : s.buffer.length + s.pills < cfg.capacity) :
      Step cfg s { s with todo := rest, buffer := s.buffer ++ [v],
                          unfinished := s.unfinished + 1,
                          stats := { s.stats with fetched := s.stats.fetched + 1 } }
  | fetchFail (s : PipeState) (v : PVideo) (rest : List PVideo)
      (htodo : s.todo = v :: rest) (herr : v.fetch.isOk = false) :
      Step cfg s { s with todo := rest,
                          stats := { s.stats with failed := s.stats.failed + 1 },
                          prodFail := s.prodFail + 1,
                          store := journalAppend v.journalIOOk (watchUrl v.videoId)
                            v.videoId v.fetch.msg "" cfg.channelName s.store }
  | producerFinish (s : PipeState)
      (hdone : s.producerDone = false) (htodo : s.todo = []) :
      Step cfg s { s with producerDone := true }
  | consumerGet (s : PipeState) (v : PVideo) (rest : List PVideo)
      (hbuf : s.buffer = v :: rest) :
      Step cfg s { s with buffer := rest, inFlight := s.inFlight ++ [v] }
  | consumerFinish (s : PipeState) (v : PVideo) (l1 l2 : List PVideo)
      (hin : s.inFlight = l1 ++ v :: l2) :
      Step cfg s { s with inFlight := l1 ++ l2,
                          stats := consumerProcess v.analyzeOk s.stats,
                          unfinished := s.unfinished - 1 }
  | setDone (s : PipeState) (hp : s.producerDone = true)
      (hu : s.unfinished = 0) (hd : s.doneEvent = false) :
      Step cfg s { s with doneEvent := true }
  | putPill (s : PipeState) (hd : s.doneEvent = true)
      (hpi : s.pillsIssued < cfg.consumers)
      (hcap : s.buffer.length + s.pills < cfg.capacity) :
      Step cfg s { s with pills := s.pills + 1, pillsIssued := s.pillsIssued + 1,
                          unfinished := s.unfinished + 1 }
  | getPill (s : PipeState) (hp : 0 < s.pills) :
      Step cfg s { s with pills := s.pills - 1 }

/-- States reachable from a given start state. -/
inductive Reachable (cfg : PipeCfg) (s0 : PipeState) : PipeState → Prop where
  | refl : Reachable cfg s0 s0
  | step {s s' : PipeState} :
      Reachable cfg s0 s → Step cfg s s' → Reachable cfg s0 s'

/-- Invariant of every reachable pipeline state: `unfinished_tasks` counts
buffered payloads, in-flight payloads and issued pills; `fetched` counts
buffered, in-flight and processed payloads; `failed + success` equals the
producer's failure count plus `processed`; the queue respects its capacity;
a finished producer has no items left; and once `done_event` is set, the
producer has finished and no payload is buffered or in flight. -/
def PipeInv (cfg : PipeCfg) (s : PipeState) : Prop :=
  s.unfinished = s.buffer.length + s.inFlight.length + s.pillsIssued ∧
  s.stats.fetched = s.buffer.length + s.inFlight.length + s.stats.processed ∧
  s.stats.failed + s.stats.success = s.prodFail + s.stats.processed ∧
  s.buffer.length + s.pills ≤ cfg.capacity ∧
  (s.producerDone = true → s.todo = []) ∧
  (s.doneEvent = true →
    s.producerDone = true ∧ s.buffer.length = 0 ∧ s.inFlight.length = 0)

/-! ## Concrete runs used as witnesses and counterexamples -/

/-- A sequence of journal appends, each one atomic because the whole
read-modify-write happens under `pending_lock`; any concurrent execution of
appends is therefore equivalent to some such sequence. -/
def journalFold (rs : List FailureRecord) (store : Option Pending) : Option Pending :=
  rs.foldl
    (fun st r => add_to_pending r.url r.video_id r.error r.attempted_at r.source st) store

/-- Demo run configuration: one consumer, capacity 20 as in `main`. -/
def demoCfg : PipeCfg := mainPipeCfg 1 "Demo Channel"

/-- Demo producer configuration: the default `--vpn-rotate 15`. -/
def pCfgDemo : ProducerCfg := { vpnRotate := 15, channelName := "Demo Channel" }

/-- Item whose fetch and analysis both succeed. -/
def vA : PVideo :=
  { videoId := "A", fetch := .ok "transcript A", analyzeOk := true,
    journalIOOk := true, vpn := .connected }

/-- Item whose fetch raises (and whose journal write succeeds). -/
def vB : PVideo :=
  { videoId := "B", fetch := .err "no transcript found", analyzeOk := true,
    journalIOOk := true, vpn := .connected }

/-- Item whose fetch succeeds but whose analysis step raises. -/
def vC : PVideo :=
  { videoId := "C", fetch := .ok "transcript C", analyzeOk := false,
    journalIOOk := true, vpn := .connected }

/-- Item fetched successfully in the idempotent-skip scenario. -/
def wC : PVideo :=
  { videoId := "C", fetch := .ok "transcript C", analyzeOk := true,
    journalIOOk := true, vpn := .connected }

/-- An always-failing item with the given id (transient error). -/
def eF (vid : String) : PVideo :=
  { videoId := vid, fetch := .err "could not retrieve transcript", analyzeOk := true,
    journalIOOk := true, vpn := .connected }

/-- Item whose fetch fails with a transient (non-rate-limited) error. -/
def vT : PVideo :=
  { videoId := "D", fetch := .err "no captions available", analyzeOk := true,
    journalIOOk := true, vpn := .connected }

/-- Item whose fetch fails and whose journal write also raises. -/
def vJ : PVideo :=
  { videoId := "J", fetch := .err "fetch failed", analyzeOk := true,
    journalIOOk := false, vpn := .connected }

/-- Run A: one item, fetch and analysis succeed, full drain.  States after
each scheduler step. -/
def aS0 : PipeState := initPipeState [vA] none

def aS1 : PipeState :=
  { aS0 with todo := [], buffer := aS0.buffer ++ [vA],
             unfinished := aS0.unfinished + 1,
             stats := { aS0.stats with fetched := aS0.stats.fetched + 1 } }

def aS2 : PipeState := { aS1 with producerDone := true }

def aS3 : PipeState := { aS2 with buffer := [], inFlight := aS2.inFlight ++ [vA] }

def aS4 : PipeState :=
  { aS3 with inFlight := [], stats := consumerProcess vA.analyzeOk aS3.stats,
             unfinished := aS3.unfinished - 1 }

def aS5 : PipeState := { aS4 with doneEvent := true }

/-- Run B: one item whose fetch fails; producer journals it and the run
completes with nothing ever queued. -/
def bS0 : PipeState := initPipeState [vB] none

def bS1 : PipeState :=
  { bS0 with todo := [],
             stats := { bS0.stats with failed := bS0.stats.failed + 1 },
             prodFail := bS0.prodFail + 1,
             store := journalAppend vB.journalIOOk (watchUrl vB.videoId) vB.videoId
               vB.fetch.msg "" demoCfg.channelName bS0.store }

def bS2 : PipeState := { bS1 with producerDone := true }

def bS3 : PipeState := { bS2 with doneEvent := true }

/-- Run C: one item fetched successfully whose analysis step fails in the
consumer. -/
def cS0 : PipeState := initPipeState [vC] none

def cS1 : PipeState :=
  { cS0 with todo := [], buffer := cS0.buffer ++ [vC],
             unfinished := cS0.unfinished + 1,
             stats := { cS0.stats with fetched := cS0.stats.fetched + 1 } }

def cS2 : PipeState := { cS1 with producerDone := true }

def cS3 : PipeState := { cS2 with buffer := [], inFlight := cS2.inFlight ++ [vC] }

def cS4 : PipeState :=
  { cS3 with inFlight := [], stats := consumerProcess vC.analyzeOk cS3.stats,
             unfinished := cS3.unfinished - 1 }

def cS5 : PipeState := { cS4 with doneEvent := true }

/-- Attempt oracle with a transient (non-rate-limited) failure on the first
attempt and a success available on the second. -/
def c2transientOracle : Nat → AttemptRes :=
  fun n => if n = 0 then AttemptRes.err "no captions available" else AttemptRes.ok "T"

/-- Attempt oracle with rate-limited failures on the first two attempts and
a success on the third. -/
def c2rlOracle : Nat → AttemptRes :=
  fun n =>
    if n = 0 then AttemptRes.err "YouTube is blocking requests from your IP address"
    else if n = 1 then AttemptRes.err "still blocking requests from your IP here"
    else AttemptRes.ok "T"

/-- Producer-local state with three consecutive failures accumulated, as
left by three failing fetches. -/
def rotDemoState : ProducerState :=
  { attempts := 3, consecutiveFailures := 3, lastVpnSwitch := 0, queue := [],
    store := none,
    stats := { success := 0, failed := 3, fetched := 0, processed := 0 },
    events := [Ev.fetchTry "E1", Ev.fetchTry "E2", Ev.fetchTry "E3"] }

/-! ## Helper lemmas -/

/-- The pipeline invariant holds at the start of every run. -/
theorem pipeInv_init (cfg : PipeCfg) (videos : List PVideo) (store0 : Option Pending) :
    PipeInv cfg (initPipeState videos store0) := by
  simp [PipeInv, initPipeState]

/-- The pipeline invariant is preserved by every scheduler step. -/
theorem pipeInv_step {cfg : PipeCfg} {s s' : PipeState}
    (inv : PipeInv cfg s) (h : Step cfg s s') : PipeInv cfg s' := by
  obtain ⟨i1, i2, i3, i4, i5, i6⟩ := inv
  cases h with
  | fetchOk v rest htodo hok hcap =>
      refine ⟨?_, ?_, ?_, ?_, ?_, ?_⟩
      · simp only [List.length_append, List.length_cons, List.length_nil]
        omega
      · simp only [List.length_append, List.length_cons, List.length_nil]
        omega
      · exact i3
      · simp only [List.length_append, List.length_cons, List.length_nil]
        omega
      · intro hpd
        have h0 := i5 hpd
        rw [htodo] at h0
        exact (List.cons_ne_nil v rest h0).elim
      · intro hde
        have h0 := i5 (i6 hde).1
        rw [htodo] at h0
        exact (List.cons_ne_nil v rest h0).elim
  | fetchFail v rest htodo herr =>
      refine ⟨i1, i2, ?_, i4, ?_, ?_⟩
      · dsimp only
        omega
      · intro hpd
        have h0 := i5 hpd
        rw [htodo] at h0
        exact (List.cons_ne_nil v rest h0).elim
      · intro hde
        have h0 := i5 (i6 hde).1
        rw [htodo] at h0
        exact (List.cons_ne_nil v rest h0).elim
  | producerFinish hdone htodo =>
      refine ⟨i1, i2, i3, i4, ?_, ?_⟩
      · intro _
        exact htodo
      · intro hde
        exact ⟨rfl, (i6 hde).2.1, (i6 hde).2.2⟩
  | consumerGet v rest hbuf =>
      rw [hbuf] at i1 i2 i4
      refine ⟨?_, ?_, i3, ?_, i5, ?_⟩
      · simp only [List.length_append, List.length_cons, List.length_nil]
        simp only [List.length_cons] at i1
        omega
      · simp only [List.length_append, List.length_cons, List.length_nil]
        simp only [List.length_cons] at i2
        omega
      · dsimp only
        simp only [List.length_cons] at i4
        omega
      · intro hde
        have h0 := (i6 hde).2.1
        rw [hbuf] at h0
        simp at h0
  | consumerFinish v l1 l2 hin =>
      rw [hin] at i1 i2
      simp only [List.length_append, List.length_cons] at i1 i2
      refine ⟨?_, ?_, ?_, i4, i5, ?_⟩
      · dsimp only
        simp only [List.length_append]
        omega
      · cases hv : v.analyzeOk <;>
          simp only [consumerProcess, hv, Bool.false_eq_true, if_false, if_true,
            List.length_append] <;> omega
      · cases hv : v.analyzeOk <;>
          simp only [consumerProcess, hv, Bool.false_eq_true, if_false, if_true] <;> omega
      · intro hde
        have h0 := (i6 hde).2.2
        rw [hin] at h0
        simp at h0
  | setDone hp hu hd =>
      refine ⟨i1, i2, i3, i4, i5, ?_⟩
      · intro _
        refine ⟨hp, ?_, ?_⟩ <;> dsimp only <;> omega
  | putPill hd hpi hcap =>
      refine ⟨?_, i2, i3, ?_, i5, ?_⟩
      · dsimp only
        omega
      · dsimp only
        omega
      · intro hde
        exact i6 hde
  | getPill hp =>
      refine ⟨i1, i2, i3, ?_, i5, ?_⟩
      · dsimp only
        omega
      · intro hde
        exact i6 hde

/-- The pipeline invariant holds in every reachable state of a run. -/
theorem pipeInv_reachable {cfg : PipeCfg} {videos : List PVideo}
    {store0 : Option Pending} {s : PipeState}
    (h : Reachable cfg (initPipeState videos store0) s) : PipeInv cfg s := by
  induction h with
  | refl => exact pipeInv_init cfg videos store0
  | step _ hs ih => exact pipeInv_step ih hs

/-- `fetchTry` events never come out of a `switch_vpn` call. -/
theorem fetchTry_not_mem_switch (vid : String) (c : Bool) (r : VpnRes) :
    Ev.fetchTry vid ∉ (if c then (switch_vpn r).2 else []) := by
  cases c <;> cases r <;> simp [switch_vpn]

/-- A producer iteration only adds a `fetchTry` event for its own item. -/
theorem producerStep_fetchTry {cfg : ProducerCfg} {v : PVideo} {s : ProducerState}
    {vid : String} (h : Ev.fetchTry vid ∈ (producerStep cfg v s).events) :
    Ev.fetchTry vid ∈ s.events ∨ vid = v.videoId := by
  unfold producerStep at h
  cases hf : v.fetch with
  | ok t =>
      rw [hf] at h
      simp only [List.mem_append, List.mem_cons, List.not_mem_nil, or_false] at h
      rcases h with (h | h) | h
      · exact Or.inl h
      · exact (fetchTry_not_mem_switch vid _ v.vpn h).elim
      · rcases h with h | h
        · exact Or.inr (by injection h)
        · exact Ev.noConfusion h
  | err m =>
      rw [hf] at h
      simp only [List.mem_append, List.mem_cons, List.not_mem_nil, or_false] at h
      rcases h with (h | h) | h
      · exact Or.inl h
      · exact (fetchTry_not_mem_switch vid _ v.vpn h).elim
      · exact Or.inr (by injection h)

/-- A journal append only adds the id it is called with. -/
theorem storeIds_journalAppend {vid : String} {ioOk : Bool}
    {url vid2 err t chan : String} {store : Option Pending}
    (h : vid ∈ storeIds (journalAppend ioOk url vid2 err t chan store)) :
    vid ∈ storeIds store ∨ vid = vid2 := by
  unfold journalAppend at h
  split at h
  · simp only [add_to_pending, save_pending] at h
    split at h
    · exact Or.inl h
    · unfold storeIds at h ⊢
      simp only [load_pending, List.map_append, List.mem_append, List.map_cons,
        List.map_nil, List.mem_singleton] at h
      rcases h with h | h
      · left
        cases store <;> simpa [load_pending] using h
      · exact Or.inr h
  · exact Or.inl h

/-- A producer iteration only adds its own item's id to the journal. -/
theorem producerStep_storeIds {cfg : ProducerCfg} {v : PVideo} {s : ProducerState}
    {vid : String} (h : vid ∈ storeIds (producerStep cfg v s).store) :
    vid ∈ storeIds s.store ∨ vid = v.videoId := by
  unfold producerStep at h
  cases hf : v.fetch with
  | ok t =>
      rw [hf] at h
      exact Or.inl h
  | err m =>
      rw [hf] at h
      exact storeIds_journalAppend h

/-- Over a whole producer run, every `fetchTry` event belongs to an item of
the processed list (or was already in the trace). -/
theorem producerRun_fetchTry {cfg : ProducerCfg} {vid : String} :
    ∀ {vs : List PVideo} {s : ProducerState},
      Ev.fetchTry vid ∈ (producerRun cfg vs s).events →
      Ev.fetchTry vid ∈ s.events ∨ vid ∈ vs.map (fun v => v.videoId)
  | [], s, h => Or.inl h
  | v :: rest, s, h => by
      have step : producerRun cfg (v :: rest) s =
          producerRun cfg rest (producerStep cfg v s) := rfl
      rw [step] at h
      rcases producerRun_fetchTry h with h' | h'
      · rcases producerStep_fetchTry h' with h'' | h''
        · exact Or.inl h''
        · exact Or.inr (by simp [h''])
      · exact Or.inr (by simp [h'])

/-- Over a whole producer run, every id added to the journal belongs to an
item of the processed list. -/
theorem producerRun_storeIds {cfg : ProducerCfg} {vid : String} :
    ∀ {vs : List PVideo} {s : ProducerState},
      vid ∈ storeIds (producerRun cfg vs s).store →
      vid ∈ storeIds s.store ∨ vid ∈ vs.map (fun v => v.videoId)
  | [], s, h => Or.inl h
  | v :: rest, s, h => by
      have step : producerRun cfg (v :: rest) s =
          producerRun cfg rest (producerStep cfg v s) := rfl
      rw [step] at h
      rcases producerRun_storeIds h with h' | h'
      · rcases producerStep_storeIds h' with h'' | h''
        · exact Or.inl h''
        · exact Or.inr (by simp [h''])
      · exact Or.inr (by simp [h'])

/-- Items surviving `main`'s filter are not in the existing-ID set. -/
theorem to_process_spec {videos : List PVideo} {ex : List String} {v : PVideo}
    (h : v ∈ to_process videos ex) : v.videoId ∉ ex := by
  simp only [to_process, List.mem_filter, Bool.and_eq_true, Bool.not_eq_true',
    beq_eq_false_iff_ne, ne_eq] at h
  intro hmem
  have h2 := h.2.2
  simp [hmem] at h2

/-- One journal append preserves distinctness of the recorded ids. -/
theorem add_to_pending_nodup {store : Option Pending}
    (h : (storeIds store).Nodup) (u vid e t src : String) :
    (storeIds (add_to_pending u vid e t src store)).Nodup := by
  simp only [add_to_pending, save_pending]
  split
  · exact h
  · rename_i hmem
    unfold storeIds at h ⊢
    simp only [load_pending, List.map_append, List.map_cons, List.map_nil]
    rw [List.nodup_append]
    refine ⟨?_, List.nodup_singleton vid, ?_⟩
    · cases store <;> simpa [load_pending] using h
    · intro x hx hx'
      simp only [List.mem_singleton] at hx'
      subst hx'
      apply hmem
      cases store <;> simpa [load_pending] using hx

/-- Run A, step 1: the producer fetches `vA` and puts it on the channel. -/
theorem stepA1 : Step demoCfg aS0 aS1 :=
  Step.fetchOk aS0 vA [] rfl rfl (by decide)

/-- Run A, step 2: the producer thread returns. -/
theorem stepA2 : Step demoCfg aS1 aS2 :=
  Step.producerFinish aS1 rfl rfl

/-- Run A, step 3: the consumer dequeues `vA`. -/
theorem stepA3 : Step demoCfg aS2 aS3 :=
  Step.consumerGet aS2 vA [] rfl

/-- Run A, step 4: the consumer finishes `vA` and acknowledges it. -/
theorem stepA4 : Step demoCfg aS3 aS4 :=
  Step.consumerFinish aS3 vA [] [] rfl

/-- Run A, step 5: the coordinator's drain-and-join returns and it sets
`done_event`. -/
theorem stepA5 : Step demoCfg aS4 aS5 :=
  Step.setDone aS4 rfl rfl rfl

/-- Run A reaches its completed state. -/
theorem reachA : Reachable demoCfg aS0 aS5 :=
  .step (.step (.step (.step (.step .refl stepA1) stepA2) stepA3) stepA4) stepA5

/-- Run B, step 1: the producer's fetch of `vB` fails and is journaled. -/
theorem stepB1 : Step demoCfg bS0 bS1 :=
  Step.fetchFail bS0 vB [] rfl rfl

/-- Run B, step 2: the producer thread returns. -/
theorem stepB2 : Step demoCfg bS1 bS2 :=
  Step.producerFinish bS1 rfl rfl

/-- Run B, step 3: the coordinator sets `done_event` (the queue was never
populated). -/
theorem stepB3 : Step demoCfg bS2 bS3 :=
  Step.setDone bS2 rfl rfl rfl

/-- Run B reaches its completed state. -/
theorem reachB : Reachable demoCfg bS0 bS3 :=
  .step (.step (.step .refl stepB1) stepB2) stepB3

/-- Run C, step 1: the producer fetches `vC` and puts it on the channel. -/
theorem stepC1 : Step demoCfg cS0 cS1 :=
  Step.fetchOk cS0 vC [] rfl rfl (by decide)

/-- Run C, step 2: the producer thread returns. -/
theorem stepC2 : Step demoCfg cS1 cS2 :=
  Step.producerFinish cS1 rfl rfl

/-- Run C, step 3: the consumer dequeues `vC`. -/
theorem stepC3 : Step demoCfg cS2 cS3 :=
  Step.consumerGet cS2 vC [] rfl

/-- Run C, step 4: the consumer's analysis of `vC` raises; it counts the
item as failed and processed and acknowledges it — nothing is journaled. -/
theorem stepC4 : Step demoCfg cS3 cS4 :=
  Step.consumerFinish cS3 vC [] [] rfl

/-- Run C, step 5: the coordinator sets `done_event`. -/
theorem stepC5 : Step demoCfg cS4 cS5 :=
  Step.setDone cS4 rfl rfl rfl

/-- Run C reaches its completed state. -/
theorem reachC : Reachable demoCfg cS0 cS5 :=
  .step (.step (.step (.step (.step .refl stepC1) stepC2) stepC3) stepC4) stepC5

/-! ## Claim theorems -/

/-- C1 (counterexample): a completed pipeline run (drained and `done_event`
set) in which the producer's only fetch failed ends with `processed = 0`,
`succeeded = 0`, `failed = 1`, so `processed == succeeded + failed` is false:
producer fetch failures increment `failed` but never `processed`. -/
theorem c1_counterexample :
    Reachable demoCfg bS0 bS3 ∧ bS3.doneEvent = true ∧
    bS3.stats.failed = 1 ∧ bS3.stats.success = 0 ∧ bS3.stats.processed = 0 ∧
    ¬(bS3.stats.processed = bS3.stats.success + bS3.stats.failed) :=
  ⟨reachB, by decide, by decide, by decide, by decide, by decide⟩

/-- C1 (amended): at completion of every run, `processed` plus the number of
producer fetch failures equals `succeeded + failed`, and
`processed <= fetched`; `processed == succeeded + failed` itself holds
exactly when no producer fetch failure occurred. -/
theorem c1_stats_amended (cfg : PipeCfg) (videos : List PVideo)
    (store0 : Option Pending) (s : PipeState)
    (hr : Reachable cfg (initPipeState videos store0) s)
    (hdone : s.doneEvent = true) :
    s.stats.processed + s.prodFail = s.stats.success + s.stats.failed ∧
    s.stats.processed ≤ s.stats.fetched ∧
    (s.prodFail = 0 → s.stats.processed = s.stats.success + s.stats.failed) := by
  obtain ⟨i1, i2, i3, i4, i5, i6⟩ := pipeInv_reachable hr
  exact ⟨by omega, by omega, fun h0 => by omega⟩

/-- C1 witness: the amended statement evaluated on the completed run B. -/
theorem c1_witness :
    bS3.stats.processed + bS3.prodFail = bS3.stats.success + bS3.stats.failed ∧
    bS3.stats.processed ≤ bS3.stats.fetched :=
  ⟨(c1_stats_amended demoCfg [vB] none bS3 reachB (by decide)).1,
   (c1_stats_amended demoCfg [vB] none bS3 reachB (by decide)).2.1⟩

/-- C7: in every reachable state of a run with `main`'s configuration
(`Queue(maxsize=20)`), the channel holds at most 20 entries (payloads plus
poison pills); moreover any step that grows the channel contents can only
fire from a state strictly below capacity — `put` blocks at capacity. -/
theorem c7_channel_capacity :
    (∀ (consumers : Nat) (chan : String) (videos : List PVideo)
        (store0 : Option Pending) (s : PipeState),
        Reachable (mainPipeCfg consumers chan) (initPipeState videos store0) s →
        s.buffer.length + s.pills ≤ 20) ∧
    (∀ (cfg : PipeCfg) (s s' : PipeState), Step cfg s s' →
        s.buffer.length + s.pills < s'.buffer.length + s'.pills →
        s.buffer.length + s.pills < cfg.capacity) := by
  constructor
  · intro n chan videos store0 s hr
    exact (pipeInv_reachable hr).2.2.2.1
  · intro cfg s s' hs hgrow
    cases hs with
    | fetchOk v rest htodo hok hcap => exact hcap
    | putPill hd hpi hcap => exact hcap
    | fetchFail v rest htodo herr =>
        dsimp only at hgrow
        omega
    | producerFinish hdone htodo =>
        dsimp only at hgrow
        omega
    | consumerGet v rest hbuf =>
        dsimp only at hgrow
        rw [hbuf] at hgrow
        simp only [List.length_cons] at hgrow
        omega
    | consumerFinish v l1 l2 hin =>
        dsimp only at hgrow
        omega
    | setDone hp hu hd =>
        dsimp only at hgrow
        omega
    | getPill hp =>
        dsimp only at hgrow
        omega

/-- C7 witness: the capacity bound evaluated on a reachable state of the
completed run A. -/
theorem c7_witness : aS5.buffer.length + aS5.pills ≤ 20 :=
  c7_channel_capacity.1 1 "Demo Channel" [vA] none aS5 reachA

/-- C9: whenever `done_event` is set, `processed = fetched` and no payload
remains buffered or in flight — every payload the producer put on the
channel was dequeued and acknowledged exactly once; and the only step that
sets `done_event` requires the producer to have finished and
`unfinished_tasks = 0` (the drain-and-join returned), so no enqueued payload
is abandoned. -/
theorem c9_drain_then_cancel :
    (∀ (cfg : PipeCfg) (videos : List PVideo) (store0 : Option Pending)
        (s : PipeState),
        Reachable cfg (initPipeState videos store0) s → s.doneEvent = true →
        s.stats.processed = s.stats.fetched ∧
        s.buffer.length = 0 ∧ s.inFlight.length = 0) ∧
    (∀ (cfg : PipeCfg) (s s' : PipeState), Step cfg s s' →
        s.doneEvent = false → s'.doneEvent = true →
        s.producerDone = true ∧ s.unfinished = 0) := by
  constructor
  · intro cfg videos store0 s hr hdone
    obtain ⟨i1, i2, i3, i4, i5, i6⟩ := pipeInv_reachable hr
    obtain ⟨hpd, hbuf, hinf⟩ := i6 hdone
    exact ⟨by omega, hbuf, hinf⟩
  · intro cfg s s' hs h0 h1
    cases hs with
    | setDone hp hu hd => exact ⟨hp, hu⟩
    | fetchOk v rest htodo hok hcap =>
        dsimp only at h1
        rw [h0] at h1
        exact Bool.noConfusion h1
    | fetchFail v rest htodo herr =>
        dsimp only at h1
        rw [h0] at h1
        exact Bool.noConfusion h1
    | producerFinish hdone htodo =>
        dsimp only at h1
        rw [h0] at h1
        exact Bool.noConfusion h1
    | consumerGet v rest hbuf =>
        dsimp only at h1
        rw [h0] at h1
        exact Bool.noConfusion h1
    | consumerFinish v l1 l2 hin =>
        dsimp only at h1
        rw [h0] at h1
        exact Bool.noConfusion h1
    | putPill hd hpi hcap =>
        dsimp only at h1
        rw [h0] at h1
        exact Bool.noConfusion h1
    | getPill hp =>
        dsimp only at h1
        rw [h0] at h1
        exact Bool.noConfusion h1

/-- C9 witness: the drained run A ends with `processed = fetched`. -/
theorem c9_witness : aS5.stats.processed = aS5.stats.fetched :=
  (c9_drain_then_cancel.1 demoCfg [vA] none aS5 reachA (by decide)).1

/-- C6 (counterexample): run C fetches one item successfully, its analysis
fails in the consumer, the run completes with `processed = 1`, `failed = 1`,
and the Failure Journal is still empty — the consumer appends no
FailureRecord on analysis failure. -/
theorem c6_counterexample :
    Reachable demoCfg cS0 cS5 ∧ cS5.doneEvent = true ∧
    cS5.stats.processed = 1 ∧ cS5.stats.failed = 1 ∧
    storeIds cS5.store = [] :=
  ⟨reachC, by decide, by decide, by decide, by decide⟩

/-- C6 (amended): FailureRecords reach the journal only through the
Producer's fetch-failure path — any step that changes the journal store is a
producer fetch failure (it bumps the producer failure count and `failed`,
and leaves `processed` untouched); consumers never append on analysis
failure. -/
theorem c6_journal_producer_only (cfg : PipeCfg) (s s' : PipeState)
    (h : Step cfg s s') (hne : s'.store ≠ s.store) :
    s'.prodFail = s.prodFail + 1 ∧ s'.stats.failed = s.stats.failed + 1 ∧
    s'.stats.processed = s.stats.processed := by
  cases h with
  | fetchFail v rest htodo herr => exact ⟨rfl, rfl, rfl⟩
  | fetchOk v rest htodo hok hcap => exact absurd rfl hne
  | producerFinish hdone htodo => exact absurd rfl hne
  | consumerGet v rest hbuf => exact absurd rfl hne
  | consumerFinish v l1 l2 hin => exact absurd rfl hne
  | setDone hp hu hd => exact absurd rfl hne
  | putPill hd hpi hcap => exact absurd rfl hne
  | getPill hp => exact absurd rfl hne

/-- C6 witness: the amended statement evaluated on run B's journaling step. -/
theorem c6_witness :
    bS1.prodFail = bS0.prodFail + 1 ∧ bS1.stats.failed = bS0.stats.failed + 1 ∧
    bS1.stats.processed = bS0.stats.processed :=
  c6_journal_producer_only demoCfg bS0 bS1 stepB1 (by decide)

/-- C3: after any sequence of journal appends — each append atomic under
`pending_lock`, so every concurrent execution is equivalent to some
sequence — a journal whose ids were distinct keeps distinct ids, and in
particular no id ever appears in two records. -/
theorem c3_journal_dedup (store0 : Option Pending) (rs : List FailureRecord)
    (h : (storeIds store0).Nodup) :
    (storeIds (journalFold rs store0)).Nodup ∧
    ∀ vid : String, (storeIds (journalFold rs store0)).count vid ≤ 1 := by
  have main : ∀ (l : List FailureRecord) (store : Option Pending),
      (storeIds store).Nodup → (storeIds (journalFold l store)).Nodup := by
    intro l
    induction l with
    | nil => intro store h0; exact h0
    | cons r rest ih =>
        intro store h0
        exact ih _ (add_to_pending_nodup h0 r.url r.video_id r.error
          r.attempted_at r.source)
  refine ⟨main rs store0 h, fun vid => ?_⟩
  exact List.nodup_iff_count_le_one.mp (main rs store0 h) vid

/-- C3 witness: two appends carrying the same id `X` — the order in which
the producer and a consumer thread would win the lock — leave exactly one
record for `X`. -/
theorem c3_witness :
    (storeIds (journalFold
      [{ url := "u1", video_id := "X", error := "e1", attempted_at := "t1", source := "s1" },
       { url := "u2", video_id := "X", error := "e2", attempted_at := "t2", source := "s2" }]
      none)).Nodup ∧
    storeIds (journalFold
      [{ url := "u1", video_id := "X", error := "e1", attempted_at := "t1", source := "s1" },
       { url := "u2", video_id := "X", error := "e2", attempted_at := "t2", source := "s2" }]
      none) = ["X"] :=
  ⟨(c3_journal_dedup none _ (by decide)).1, by decide⟩

/-- C10: loading a missing or unparseable `pending.json` yields the empty
structure; an append on top of that persists a journal holding only the new
record (whatever the unreadable file held is gone); and a journal exception
during the producer's append leaves the store untouched while the producer
still counts the failure and the run continues with the remaining items. -/
theorem c10_journal_recovery :
    load_pending none = { failed := [] } ∧
    (∀ u v e t s, add_to_pending u v e t s none =
      some { failed := [{ url := u, video_id := v, error := e,
                          attempted_at := t, source := s }] }) ∧
    (∀ (cfg : ProducerCfg) (video : PVideo) (s : ProducerState),
        video.fetch.isOk = false → video.journalIOOk = false →
        (producerStep cfg video s).store = s.store ∧
        (producerStep cfg video s).stats.failed = s.stats.failed + 1) ∧
    (∀ (cfg : ProducerCfg) (video : PVideo) (vs : List PVideo) (s : ProducerState),
        producerRun cfg (video :: vs) s = producerRun cfg vs (producerStep cfg video s)) := by
  refine ⟨rfl, ?_, ?_, fun cfg video vs s => rfl⟩
  · intro u v e t s
    simp [add_to_pending, load_pending, save_pending]
  · intro cfg video s hfe hio
    cases hv : video.fetch with
    | ok t =>
        rw [hv] at hfe
        exact Bool.noConfusion hfe
    | err m =>
        unfold producerStep
        rw [hv]
        constructor
        · dsimp only
          simp [journalAppend, hio]
        · rfl

/-- C10 witness: the producer step evaluated on an item whose fetch fails
while the journal write raises. -/
theorem c10_witness :
    (producerStep pCfgDemo vJ (initProducerState (some { failed := [] }))).store =
      (initProducerState (some { failed := [] })).store ∧
    (producerStep pCfgDemo vJ (initProducerState (some { failed := [] }))).stats.failed =
      (initProducerState (some { failed := [] })).stats.failed + 1 :=
  c10_journal_recovery.2.2.1 pCfgDemo vJ (initProducerState (some { failed := [] }))
    (by decide) (by decide)

/-- C8: the analysis capability never raises — on any internal error or
timeout `ollama_generate` returns the empty string, which the section parser
turns into the default-filled result — and the consumer counts the item as
processed whether its analysis succeeded or failed. -/
theorem c8_analysis_nonfatal :
    (∀ e : String, ollama_generate (Except.error e) = []) ∧
    (∀ e : String, parse_section_response (ollama_generate (Except.error e)) =
      ("Untitled Section".toList, [])) ∧
    (∀ (b : Bool) (st : Stats), (consumerProcess b st).processed = st.processed + 1) := by
  refine ⟨fun e => rfl, fun e => rfl, ?_⟩
  intro b st
  cases b <;> simp [consumerProcess]

/-- C4: an item whose id is in the pre-existing-ID set is filtered out
before the producer starts, so its id is never the subject of a fetch
attempt and (if it was not already journaled) never enters the Failure
Journal during the run. -/
theorem c4_existing_skipped (cfg : ProducerCfg) (videos : List PVideo)
    (existingIds : List String) (store0 : Option Pending) (vid : String)
    (hex : vid ∈ existingIds) (hpre : vid ∉ storeIds store0) :
    Ev.fetchTry vid ∉ (channelPipelineRun cfg videos existingIds store0).events ∧
    vid ∉ storeIds (channelPipelineRun cfg videos existingIds store0).store := by
  unfold channelPipelineRun
  constructor
  · intro hmem
    rcases producerRun_fetchTry hmem with h | h
    · simp [initProducerState] at h
    · obtain ⟨v, hv, hvid⟩ := List.mem_map.1 h
      refine to_process_spec hv ?_
      rw [hvid]
      exact hex
  · intro hmem
    rcases producerRun_storeIds hmem with h | h
    · exact hpre h
    · obtain ⟨v, hv, hvid⟩ := List.mem_map.1 h
      refine to_process_spec hv ?_
      rw [hvid]
      exact hex

/-- C4 witness: discovery yields `[A, B, C]` with `B` already in the
library — only `A` and `C` are fetched and, with both succeeding, the
completed run ends with `fetched = 2` and `processed = 2`. -/
theorem c4_witness :
    (Ev.fetchTry "B" ∉ (channelPipelineRun pCfgDemo [vA, vB, wC] ["B"] none).events ∧
     "B" ∉ storeIds (channelPipelineRun pCfgDemo [vA, vB, wC] ["B"] none).store) ∧
    (channelPipelineRun pCfgDemo [vA, vB, wC] ["B"] none).stats.fetched = 2 ∧
    (completedRunStats pCfgDemo [vA, vB, wC] ["B"] none).processed = 2 :=
  ⟨c4_existing_skipped pCfgDemo [vA, vB, wC] ["B"] none "B" (by decide) (by decide),
   by decide, by decide⟩

/-- C2 (counterexample): the pipeline producer performs no per-item retry at
all — an item whose first fetch fails with a transient error is journaled
immediately and never pushed, even though a retry would have succeeded (one
single `fetchTry` in the trace); and even the parallel importer's retry loop
re-enters only for rate-limited errors, so a transient error there is
likewise terminal on the first attempt although the second attempt would
have returned a transcript. -/
theorem c2_counterexample :
    ((channelPipelineRun pCfgDemo [vT] [] none).queue = [] ∧
     storeIds (channelPipelineRun pCfgDemo [vT] [] none).store = ["D"] ∧
     (channelPipelineRun pCfgDemo [vT] [] none).events = [Ev.fetchTry "D"]) ∧
    ((process_video_parallel "D" "Demo Channel" c2transientOracle (fun _ => 0) true
        { success := 0, failed := 0, fetched := 0, processed := 0 } none).result =
      ("D", false, "no captions available") ∧
     storeIds (process_video_parallel "D" "Demo Channel" c2transientOracle (fun _ => 0) true
        { success := 0, failed := 0, fetched := 0, processed := 0 } none).store = ["D"]) := by
  refine ⟨⟨?_, ?_, ?_⟩, ?_, ?_⟩ <;> decide

/-- C2 (amended): only `process_video_parallel` retries, and only for
errors carrying the rate-limit marker: with rate-limited failures on the
first two attempts and a success on the third, the item is processed
successfully exactly once, never journaled, and the two backoff sleeps are
`base_backoff * 2^attempt + jitter`. -/
theorem c2_retry_amended (vid chan : String) (o : Nat → AttemptRes) (j : Nat → Nat)
    (jOk : Bool) (st : Stats) (store : Option Pending) (m0 m1 t : String)
    (h0 : o 0 = .err m0) (h1 : o 1 = .err m1) (h2 : o 2 = .ok t)
    (hr0 : isRateLimited m0 = true) (hr1 : isRateLimited m1 = true) :
    process_video_parallel vid chan o j jOk st store =
      { result := (vid, true, t),
        stats := { st with success := st.success + 1, processed := st.processed + 1 },
        store := store,
        backoffs := [base_backoff * 2 ^ 0 + j 0, base_backoff * 2 ^ 1 + j 1] } := by
  simp [process_video_parallel, max_retries, processVideoParallelGo, h0, h1, h2, hr0, hr1]

/-- C2 witness: the amended statement evaluated on a concrete rate-limited
oracle with jitter samples 0 and 1. -/
theorem c2_witness :
    process_video_parallel "D" "Demo Channel" c2rlOracle (fun n => n) true
      { success := 0, failed := 0, fetched := 0, processed := 0 } none =
    { result := ("D", true, "T"),
      stats := { success := 1, failed := 0, fetched := 0, processed := 1 },
      store := none, backoffs := [5, 11] } := by
  have h := c2_retry_amended "D" "Demo Channel" c2rlOracle (fun n => n) true
    { success := 0, failed := 0, fetched := 0, processed := 0 } none
    "YouTube is blocking requests from your IP address"
    "still blocking requests from your IP here" "T" rfl rfl rfl (by decide) (by decide)
  rw [h]
  decide

/-- C5 (counterexample): with rotation disabled (`--vpn-rotate 0`, a
supported configuration), three consecutive fetch failures accumulate and
yet no rotation attempt is ever made before the next item's fetch — the
claim's "in every producer run" fails. -/
theorem c5_counterexample :
    (producerRun { vpnRotate := 0, channelName := "Demo Channel" }
        [eF "E1", eF "E2", eF "E3"] (initProducerState none)).consecutiveFailures = 3 ∧
    Ev.rotateCall ∉ (producerRun { vpnRotate := 0, channelName := "Demo Channel" }
        [eF "E1", eF "E2", eF "E3", eF "E4"] (initProducerState none)).events ∧
    Ev.fetchTry "E4" ∈ (producerRun { vpnRotate := 0, channelName := "Demo Channel" }
        [eF "E1", eF "E2", eF "E3", eF "E4"] (initProducerState none)).events := by
  refine ⟨?_, ?_, ?_⟩ <;> decide

/-- C5 (amended): when rotation is enabled (`vpn_rotate > 0`), a rotation
attempt is invoked before the item's fetch whenever `consecutive_failures`
has reached 3 or the global attempt counter reaches a fresh multiple of the
interval; the rotation records the new `last_vpn_switch` (resetting the
attempts-since-rotation distance to zero), resets `consecutive_failures`,
and a successful switch is followed by the settle delay before the fetch. -/
theorem c5_rotation_amended (cfg : ProducerCfg) (v : PVideo) (s : ProducerState)
    (henabled : 0 < cfg.vpnRotate)
    (htrig : 3 ≤ s.consecutiveFailures ∨
      ((s.attempts + 1) % cfg.vpnRotate = 0 ∧ s.lastVpnSwitch < s.attempts + 1)) :
    (∃ rest, (producerStep cfg v s).events =
        s.events ++ [Ev.rotateCall] ++
          (if v.vpn = VpnRes.connected then [Ev.settle] else []) ++
          [Ev.fetchTry v.videoId] ++ rest) ∧
    (producerStep cfg v s).lastVpnSwitch = s.attempts + 1 ∧
    (producerStep cfg v s).consecutiveFailures ≤ 1 := by
  have hrot : rotationTriggered cfg (s.attempts + 1) s.lastVpnSwitch
      s.consecutiveFailures = true := by
    unfold rotationTriggered
    rcases htrig with h | h
    · simp [henabled, h]
    · simp [henabled, h.1, h.2]
  refine ⟨?_, ?_, ?_⟩
  · cases hf : v.fetch with
    | ok t =>
        refine ⟨[Ev.pushed v.videoId], ?_⟩
        cases hv : v.vpn <;>
          simp [producerStep, hrot, hf, hv, switch_vpn, List.append_assoc]
    | err m =>
        refine ⟨[], ?_⟩
        cases hv : v.vpn <;>
          simp [producerStep, hrot, hf, hv, switch_vpn, List.append_assoc]
  · cases hf : v.fetch <;> simp [producerStep, hrot, hf]
  · cases hf : v.fetch <;> simp [producerStep, hrot, hf]

/-- C5 witness: the amended statement evaluated on a producer state with
three accumulated consecutive failures under the default interval 15. -/
theorem c5_witness :
    3 ≤ rotDemoState.consecutiveFailures ∧
    (producerStep pCfgDemo (eF "E4") rotDemoState).lastVpnSwitch =
      rotDemoState.attempts + 1 ∧
    (producerStep pCfgDemo (eF "E4") rotDemoState).consecutiveFailures ≤ 1 :=
  ⟨by decide,
   (c5_rotation_amended pCfgDemo (eF "E4") rotDemoState (by decide)
     (Or.inl (by decide))).2.1,
   (c5_rotation_amended pCfgDemo (eF "E4") rotDemoState (by decide)
     (Or.inl (by decide))).2.2⟩
